import Mathlib

/-!
Verification of the intrusive-tree linked-list core (`src/index.ts`).

The TypeScript code mutates heap-allocated node objects whose fields
(`parent`, `first`, `last`, `nextSibling`, `prevSibling`) hold references to
other nodes or `null`/`undefined`.  We embed this shallowly: node identities
are natural numbers, the heap is a total function from identities to field
records, absent references are `none`, and every operation is translated
statement by statement into explicit state passing, returning the heap at the
moment the function returns or throws.  JavaScript failure modes are kept
apart: a failed `assert(...)` call becomes `Err.assertionError` with the
message it carries, and dereferencing an absent reference (reading a property
of `null`) becomes `Err.typeError`.
-/

/-- A tree node record: the five reference fields of `ITreeNode`.  `none`
models both `null` and an absent (`undefined`) field, which the source code
only ever inspects through truthiness, where the two behave identically. -/
structure Node where
  parent : Option Nat
  first : Option Nat
  last : Option Nat
  nextSibling : Option Nat
  prevSibling : Option Nat
deriving DecidableEq, Repr

/-- The heap: every node identity carries a field record. -/
abbrev Heap := Nat → Node

/-- Assertion messages of the `assert(...)` calls in the source, in the order
they appear.  `invalidChild` is "cannot add node because it is invalid",
`invalidParent` is "cannot add to parent because it is invalid", `notAChild`
is "cannot add node as a sibling to a root", `alreadyAttached` is "expect node
to add not currently parented", and `invalidParentCheck` is "cannot check if
node is parent: node is invalid". -/
inductive Msg where
  | invalidChild
  | invalidParent
  | notAChild
  | alreadyAttached
  | invalidParentCheck
deriving DecidableEq, Repr

/-- Runtime failures: a thrown assertion error, or a TypeError from
dereferencing `null`/`undefined`. -/
inductive Err where
  | assertionError (m : Msg)
  | typeError
deriving DecidableEq, Repr

instance {ε α : Type} [DecidableEq ε] [DecidableEq α] : DecidableEq (Except ε α) :=
  fun x y =>
    match x, y with
    | .ok a, .ok b =>
      if h : a = b then .isTrue (by rw [h]) else .isFalse (by intro hc; cases hc; exact h rfl)
    | .error a, .error b =>
      if h : a = b then .isTrue (by rw [h]) else .isFalse (by intro hc; cases hc; exact h rfl)
    | .ok _, .error _ => .isFalse (by intro hc; cases hc)
    | .error _, .ok _ => .isFalse (by intro hc; cases hc)

/-- A node with every field absent, as produced by the constructors. -/
def blankNode : Node := ⟨none, none, none, none, none⟩

/-- `createNode` from the source: full role set, all fields `null`. -/
def createNode : Node := blankNode

/-- `createRoot` from the source: the object literal only has `first` and
`last` set to `null`; its missing `parent`/sibling fields read as `undefined`,
which every truthiness test in the code treats exactly like `null`, so the
record with all fields absent is its faithful image. -/
def createRoot : Node := blankNode

/-- `createLeaf` from the source: `parent`, `nextSibling`, `prevSibling` set
to `null`; the missing `first`/`last` fields read as `undefined`, treated like
`null` by every truthiness test. -/
def createLeaf : Node := blankNode

/-- `isChild`: true iff the node has a parent (`!!node.parent`). -/
def isChild (nd : Node) : Bool := nd.parent.isSome

/-- `isRoot`: true iff the node has no parent (`!node.parent`). -/
def isRoot (nd : Node) : Bool := nd.parent.isNone

/-- `isValidParent`: `!!node.first === !!node.last`. -/
def isValidParent (nd : Node) : Bool := nd.first.isSome == nd.last.isSome

/-- `isValidChild`: `!!node.parent || !(node.nextSibling || node.prevSibling)`. -/
def isValidChild (nd : Node) : Bool :=
  nd.parent.isSome || !(nd.nextSibling.isSome || nd.prevSibling.isSome)

/-- `isValidNode`: `isValidParent(node) && isValidChild(node)`. -/
def isValidNode (nd : Node) : Bool := isValidParent nd && isValidChild nd

/-- `isParent`: asserts `isValidParent(node)`, then returns `!!node.first`. -/
def isParent (nd : Node) : Except Err Bool :=
  if isValidParent nd then .ok nd.first.isSome
  else .error (.assertionError .invalidParentCheck)

/-- Write the `parent` field of node `i`. -/
def setParent (h : Heap) (i : Nat) (v : Option Nat) : Heap :=
  fun j => if j = i then { h j with parent := v } else h j

/-- Write the `first` field of node `i`. -/
def setFirst (h : Heap) (i : Nat) (v : Option Nat) : Heap :=
  fun j => if j = i then { h j with first := v } else h j

/-- Write the `last` field of node `i`. -/
def setLast (h : Heap) (i : Nat) (v : Option Nat) : Heap :=
  fun j => if j = i then { h j with last := v } else h j

/-- Write the `nextSibling` field of node `i`. -/
def setNextSibling (h : Heap) (i : Nat) (v : Option Nat) : Heap :=
  fun j => if j = i then { h j with nextSibling := v } else h j

/-- Write the `prevSibling` field of node `i`. -/
def setPrevSibling (h : Heap) (i : Nat) (v : Option Nat) : Heap :=
  fun j => if j = i then { h j with prevSibling := v } else h j

/-- The write sequence of `addFirst` once its three asserts have passed:
`const first = parent.first`, the conditional sibling splice, `node.parent =
parent`, `parent.first = node`, and finally `if (parent.last == null)
parent.last = node`, with `parent.last` read at that program point. -/
def addFirstHeap (h : Heap) (parent node : Nat) : Heap :=
  let h1 : Heap :=
    match (h parent).first with
    | some f => setPrevSibling (setNextSibling h node (some f)) f (some node)
    | none => h
  let h2 := setParent h1 node (some parent)
  let h3 := setFirst h2 parent (some node)
  if (h3 parent).last = none then setLast h3 parent (some node) else h3

/-- `addFirst(parent, node)` translated statement by statement: the three
asserts run before any write, then the write sequence of `addFirstHeap`.
Returns the heap at exit together with the returned node or the thrown
error. -/
def addFirst (h : Heap) (parent node : Nat) : Heap × Except Err Nat :=
  if isValidChild (h node) then
    if isValidParent (h parent) then
      if isRoot (h node) then (addFirstHeap h parent node, .ok node)
      else (h, .error (.assertionError .alreadyAttached))
    else (h, .error (.assertionError .invalidParent))
  else (h, .error (.assertionError .invalidChild))

/-- The write sequence of `addLast` once its three asserts have passed,
mirroring `addFirstHeap`. -/
def addLastHeap (h : Heap) (parent node : Nat) : Heap :=
  let h1 : Heap :=
    match (h parent).last with
    | some l => setNextSibling (setPrevSibling h node (some l)) l (some node)
    | none => h
  let h2 := setParent h1 node (some parent)
  let h3 := setLast h2 parent (some node)
  if (h3 parent).first = none then setFirst h3 parent (some node) else h3

/-- `addLast(parent, node)`, the mirror image of `addFirst`. -/
def addLast (h : Heap) (parent node : Nat) : Heap × Except Err Nat :=
  if isValidChild (h node) then
    if isValidParent (h parent) then
      if isRoot (h node) then (addLastHeap h parent node, .ok node)
      else (h, .error (.assertionError .alreadyAttached))
    else (h, .error (.assertionError .invalidParent))
  else (h, .error (.assertionError .invalidChild))

/-- The write sequence of `addAfter` when `existingNode` is `parent.last`:
`nodeToAdd.prevSibling = existingNode`, `existingNode.nextSibling =
nodeToAdd`, `nodeToAdd.parent = parent`, `parent.last = nodeToAdd`. -/
def addAfterLastHeap (h : Heap) (parent existingNode nodeToAdd : Nat) : Heap :=
  let h2 := setPrevSibling h nodeToAdd (some existingNode)
  let h3 := setNextSibling h2 existingNode (some nodeToAdd)
  let h4 := setParent h3 nodeToAdd (some parent)
  setLast h4 parent (some nodeToAdd)

/-- The write sequence of `addAfter` after the non-last branch has read
`ns = nodeToAdd.nextSibling` back successfully (heap `h1` already holds the
write `nodeToAdd.nextSibling = existingNode.nextSibling`):
`nodeToAdd.nextSibling.prevSibling = nodeToAdd`, `nodeToAdd.prevSibling =
existingNode`, `existingNode.nextSibling = nodeToAdd`,
`nodeToAdd.parent = parent`. -/
def addAfterMidHeap (h1 : Heap) (parent existingNode nodeToAdd ns : Nat) : Heap :=
  let h1b := setPrevSibling h1 ns (some nodeToAdd)
  let h2 := setPrevSibling h1b nodeToAdd (some existingNode)
  let h3 := setNextSibling h2 existingNode (some nodeToAdd)
  setParent h3 nodeToAdd (some parent)

/-- `addAfter(existingNode, nodeToAdd)` translated statement by statement.
The source begins with `const parent = existingNode.parent, last = parent.last
=== existingNode;` — when `existingNode` has no parent, the read `parent.last`
dereferences `null` and throws a TypeError before any assert runs.  In the
non-last branch, `nodeToAdd.nextSibling = existingNode.nextSibling;
nodeToAdd.nextSibling.prevSibling = nodeToAdd;` re-reads the just-written
field and throws a TypeError if it is absent. -/
def addAfter (h : Heap) (existingNode nodeToAdd : Nat) : Heap × Except Err Nat :=
  match (h existingNode).parent with
  | none => (h, .error .typeError)
  | some parent =>
    let last : Bool := (h parent).last == some existingNode
    if isValidChild (h nodeToAdd) then
      if isValidParent (h parent) then
        if isChild (h existingNode) then
          if isRoot (h nodeToAdd) then
            if last then (addAfterLastHeap h parent existingNode nodeToAdd, .ok nodeToAdd)
            else
              let h1 := setNextSibling h nodeToAdd ((h existingNode).nextSibling)
              match (h1 nodeToAdd).nextSibling with
              | none => (h1, .error .typeError)
              | some ns =>
                (addAfterMidHeap h1 parent existingNode nodeToAdd ns, .ok nodeToAdd)
          else (h, .error (.assertionError .alreadyAttached))
        else (h, .error (.assertionError .notAChild))
      else (h, .error (.assertionError .invalidParent))
    else (h, .error (.assertionError .invalidChild))

/-- The write sequence of `addBefore` when `existingNode` is `parent.first`:
`nodeToAdd.nextSibling = existingNode`, `existingNode.prevSibling =
nodeToAdd`, `nodeToAdd.parent = parent`, `parent.first = nodeToAdd`. -/
def addBeforeFirstHeap (h : Heap) (parent existingNode nodeToAdd : Nat) : Heap :=
  let h2 := setNextSibling h nodeToAdd (some existingNode)
  let h3 := setPrevSibling h2 existingNode (some nodeToAdd)
  let h4 := setParent h3 nodeToAdd (some parent)
  setFirst h4 parent (some nodeToAdd)

/-- The write sequence of `addBefore` after the non-first branch has read
`ps = nodeToAdd.prevSibling` back successfully (heap `h1` already holds the
write `nodeToAdd.prevSibling = existingNode.prevSibling`). -/
def addBeforeMidHeap (h1 : Heap) (parent existingNode nodeToAdd ps : Nat) : Heap :=
  let h1b := setNextSibling h1 ps (some nodeToAdd)
  let h2 := setNextSibling h1b nodeToAdd (some existingNode)
  let h3 := setPrevSibling h2 existingNode (some nodeToAdd)
  setParent h3 nodeToAdd (some parent)

/-- `addBefore(existingNode, nodeToAdd)`, the mirror image of `addAfter`:
`const first = parent.first === existingNode`, splice via `prevSibling`, and
`parent.first` updated when `existingNode` was the head. -/
def addBefore (h : Heap) (existingNode nodeToAdd : Nat) : Heap × Except Err Nat :=
  match (h existingNode).parent with
  | none => (h, .error .typeError)
  | some parent =>
    let first : Bool := (h parent).first == some existingNode
    if isValidChild (h nodeToAdd) then
      if isValidParent (h parent) then
        if isChild (h existingNode) then
          if isRoot (h nodeToAdd) then
            if first then (addBeforeFirstHeap h parent existingNode nodeToAdd, .ok nodeToAdd)
            else
              let h1 := setPrevSibling h nodeToAdd ((h existingNode).prevSibling)
              match (h1 nodeToAdd).prevSibling with
              | none => (h1, .error .typeError)
              | some ps =>
                (addBeforeMidHeap h1 parent existingNode nodeToAdd ps, .ok nodeToAdd)
          else (h, .error (.assertionError .alreadyAttached))
        else (h, .error (.assertionError .notAChild))
      else (h, .error (.assertionError .invalidParent))
    else (h, .error (.assertionError .invalidChild))

/-- The all-blank heap: every identity holds a freshly constructed node. -/
def blankHeap : Heap := fun _ => blankNode

/-- A heap where node 1 is already attached to node 0 (its `parent` is set). -/
def attachedHeap : Heap :=
  fun i => if i = 1 then { blankNode with parent := some 0 } else blankNode

/-- A heap where node 0 parents the single child node 1. -/
def childHeap : Heap :=
  fun i =>
    if i = 0 then { blankNode with first := some 1, last := some 1 }
    else if i = 1 then { blankNode with parent := some 0 }
    else blankNode

/-- A heap where node 0 parents the two-element sibling chain 1, 2. -/
def chainHeap : Heap :=
  fun i =>
    if i = 0 then { blankNode with first := some 1, last := some 2 }
    else if i = 1 then { blankNode with parent := some 0, nextSibling := some 2 }
    else if i = 2 then { blankNode with parent := some 0, prevSibling := some 1 }
    else blankNode

/-- A heap with a broken sibling chain: node 0 is a valid parent whose `first`
and `last` both point at node 2, while node 1 also has node 0 as parent but no
`nextSibling` — so node 1 is parented, is not `parent.last`, and has no next
sibling. -/
def brokenChainHeap : Heap :=
  fun i =>
    if i = 0 then { blankNode with first := some 2, last := some 2 }
    else if i = 1 then { blankNode with parent := some 0 }
    else if i = 2 then { blankNode with parent := some 0 }
    else blankNode

/-- A heap where parentless node 0 is its own first and last child. -/
def selfFirstHeap : Heap :=
  fun i =>
    if i = 0 then { blankNode with first := some 0, last := some 0 }
    else blankNode

/-- A heap where node 0 is its own parent and also parents child node 1. -/
def selfChildHeap : Heap :=
  fun i =>
    if i = 0 then { blankNode with parent := some 0, first := some 1, last := some 1 }
    else if i = 1 then { blankNode with parent := some 0 }
    else blankNode

/-- The heap after inserting nodes 1, 2, 3 in order with `addLast` under
root 0, starting from the all-blank heap. -/
def chainBuilt : Heap := (addLast (addLast (addLast blankHeap 0 1).1 0 2).1 0 3).1

@[simp] theorem setParent_parent (h : Heap) (i : Nat) (v : Option Nat) (j : Nat) :
    (setParent h i v j).parent = if j = i then v else (h j).parent := by
  unfold setParent; split <;> rfl

@[simp] theorem setParent_first (h : Heap) (i : Nat) (v : Option Nat) (j : Nat) :
    (setParent h i v j).first = (h j).first := by
  unfold setParent; split <;> rfl

@[simp] theorem setParent_last (h : Heap) (i : Nat) (v : Option Nat) (j : Nat) :
    (setParent h i v j).last = (h j).last := by
  unfold setParent; split <;> rfl

@[simp] theorem setParent_next (h : Heap) (i : Nat) (v : Option Nat) (j : Nat) :
    (setParent h i v j).nextSibling = (h j).nextSibling := by
  unfold setParent; split <;> rfl

@[simp] theorem setParent_prev (h : Heap) (i : Nat) (v : Option Nat) (j : Nat) :
    (setParent h i v j).prevSibling = (h j).prevSibling := by
  unfold setParent; split <;> rfl

@[simp] theorem setFirst_parent (h : Heap) (i : Nat) (v : Option Nat) (j : Nat) :
    (setFirst h i v j).parent = (h j).parent := by
  unfold setFirst; split <;> rfl

@[simp] theorem setFirst_first (h : Heap) (i : Nat) (v : Option Nat) (j : Nat) :
    (setFirst h i v j).first = if j = i then v else (h j).first := by
  unfold setFirst; split <;> rfl

@[simp] theorem setFirst_last (h : Heap) (i : Nat) (v : Option Nat) (j : Nat) :
    (setFirst h i v j).last = (h j).last := by
  unfold setFirst; split <;> rfl

@[simp] theorem setFirst_next (h : Heap) (i : Nat) (v : Option Nat) (j : Nat) :
    (setFirst h i v j).nextSibling = (h j).nextSibling := by
  unfold setFirst; split <;> rfl

@[simp] theorem setFirst_prev (h : Heap) (i : Nat) (v : Option Nat) (j : Nat) :
    (setFirst h i v j).prevSibling = (h j).prevSibling := by
  unfold setFirst; split <;> rfl

@[simp] theorem setLast_parent (h : Heap) (i : Nat) (v : Option Nat) (j : Nat) :
    (setLast h i v j).parent = (h j).parent := by
  unfold setLast; split <;> rfl

@[simp] theorem setLast_first (h : Heap) (i : Nat) (v : Option Nat) (j : Nat) :
    (setLast h i v j).first = (h j).first := by
  unfold setLast; split <;> rfl

@[simp] theorem setLast_last (h : Heap) (i : Nat) (v : Option Nat) (j : Nat) :
    (setLast h i v j).last = if j = i then v else (h j).last := by
  unfold setLast; split <;> rfl

@[simp] theorem setLast_next (h : Heap) (i : Nat) (v : Option Nat) (j : Nat) :
    (setLast h i v j).nextSibling = (h j).nextSibling := by
  unfold setLast; split <;> rfl

@[simp] theorem setLast_prev (h : Heap) (i : Nat) (v : Option Nat) (j : Nat) :
    (setLast h i v j).prevSibling = (h j).prevSibling := by
  unfold setLast; split <;> rfl

@[simp] theorem setNextSibling_parent (h : Heap) (i : Nat) (v : Option Nat) (j : Nat) :
    (setNextSibling h i v j).parent = (h j).parent := by
  unfold setNextSibling; split <;> rfl

@[simp] theorem setNextSibling_first (h : Heap) (i : Nat) (v : Option Nat) (j : Nat) :
    (setNextSibling h i v j).first = (h j).first := by
  unfold setNextSibling; split <;> rfl

@[simp] theorem setNextSibling_last (h : Heap) (i : Nat) (v : Option Nat) (j : Nat) :
    (setNextSibling h i v j).last = (h j).last := by
  unfold setNextSibling; split <;> rfl

@[simp] theorem setNextSibling_next (h : Heap) (i : Nat) (v : Option Nat) (j : Nat) :
    (setNextSibling h i v j).nextSibling = if j = i then v else (h j).nextSibling := by
  unfold setNextSibling; split <;> rfl

@[simp] theorem setNextSibling_prev (h : Heap) (i : Nat) (v : Option Nat) (j : Nat) :
    (setNextSibling h i v j).prevSibling = (h j).prevSibling := by
  unfold setNextSibling; split <;> rfl

@[simp] theorem setPrevSibling_parent (h : Heap) (i : Nat) (v : Option Nat) (j : Nat) :
    (setPrevSibling h i v j).parent = (h j).parent := by
  unfold setPrevSibling; split <;> rfl

@[simp] theorem setPrevSibling_first (h : Heap) (i : Nat) (v : Option Nat) (j : Nat) :
    (setPrevSibling h i v j).first = (h j).first := by
  unfold setPrevSibling; split <;> rfl

@[simp] theorem setPrevSibling_last (h : Heap) (i : Nat) (v : Option Nat) (j : Nat) :
    (setPrevSibling h i v j).last = (h j).last := by
  unfold setPrevSibling; split <;> rfl

@[simp] theorem setPrevSibling_next (h : Heap) (i : Nat) (v : Option Nat) (j : Nat) :
    (setPrevSibling h i v j).nextSibling = (h j).nextSibling := by
  unfold setPrevSibling; split <;> rfl

@[simp] theorem setPrevSibling_prev (h : Heap) (i : Nat) (v : Option Nat) (j : Nat) :
    (setPrevSibling h i v j).prevSibling = if j = i then v else (h j).prevSibling := by
  unfold setPrevSibling; split <;> rfl

theorem addFirstHeap_parent (h : Heap) (p n x : Nat) :
    (addFirstHeap h p n x).parent = if x = n then some p else (h x).parent := by
  unfold addFirstHeap
  cases hF : (h p).first <;> simp [hF] <;> try (split_ifs <;> simp_all)

theorem addFirstHeap_first (h : Heap) (p n x : Nat) :
    (addFirstHeap h p n x).first = if x = p then some n else (h x).first := by
  unfold addFirstHeap
  cases hF : (h p).first <;> simp [hF] <;> try (split_ifs <;> simp_all)

theorem addFirstHeap_last (h : Heap) (p n x : Nat) :
    (addFirstHeap h p n x).last =
      if (h p).last = none then (if x = p then some n else (h x).last)
      else (h x).last := by
  unfold addFirstHeap
  cases hF : (h p).first <;> simp [hF] <;> try (split_ifs <;> simp_all)

theorem addFirstHeap_next_some (h : Heap) (p n x f : Nat) (hF : (h p).first = some f) :
    (addFirstHeap h p n x).nextSibling =
      if x = n then some f else (h x).nextSibling := by
  unfold addFirstHeap
  simp [hF] <;> try (split_ifs <;> simp_all)

theorem addFirstHeap_next_none (h : Heap) (p n x : Nat) (hF : (h p).first = none) :
    (addFirstHeap h p n x).nextSibling = (h x).nextSibling := by
  unfold addFirstHeap
  simp [hF] <;> try (split_ifs <;> simp_all)

theorem addFirstHeap_prev_some (h : Heap) (p n x f : Nat) (hF : (h p).first = some f) :
    (addFirstHeap h p n x).prevSibling =
      if x = f then some n else (h x).prevSibling := by
  unfold addFirstHeap
  simp [hF] <;> try (split_ifs <;> simp_all)

theorem addFirstHeap_prev_none (h : Heap) (p n x : Nat) (hF : (h p).first = none) :
    (addFirstHeap h p n x).prevSibling = (h x).prevSibling := by
  unfold addFirstHeap
  simp [hF] <;> try (split_ifs <;> simp_all)

theorem addLastHeap_parent (h : Heap) (p n x : Nat) :
    (addLastHeap h p n x).parent = if x = n then some p else (h x).parent := by
  unfold addLastHeap
  cases hL : (h p).last <;> simp [hL] <;> try (split_ifs <;> simp_all)

theorem addLastHeap_last (h : Heap) (p n x : Nat) :
    (addLastHeap h p n x).last = if x = p then some n else (h x).last := by
  unfold addLastHeap
  cases hL : (h p).last <;> simp [hL] <;> try (split_ifs <;> simp_all)

theorem addLastHeap_first (h : Heap) (p n x : Nat) :
    (addLastHeap h p n x).first =
      if (h p).first = none then (if x = p then some n else (h x).first)
      else (h x).first := by
  unfold addLastHeap
  cases hL : (h p).last <;> simp [hL] <;> try (split_ifs <;> simp_all)

theorem addLastHeap_prev_some (h : Heap) (p n x l : Nat) (hL : (h p).last = some l) :
    (addLastHeap h p n x).prevSibling =
      if x = n then some l else (h x).prevSibling := by
  unfold addLastHeap
  simp [hL] <;> try (split_ifs <;> simp_all)

theorem addLastHeap_prev_none (h : Heap) (p n x : Nat) (hL : (h p).last = none) :
    (addLastHeap h p n x).prevSibling = (h x).prevSibling := by
  unfold addLastHeap
  simp [hL] <;> try (split_ifs <;> simp_all)

theorem addLastHeap_next_some (h : Heap) (p n x l : Nat) (hL : (h p).last = some l) :
    (addLastHeap h p n x).nextSibling =
      if x = l then some n else (h x).nextSibling := by
  unfold addLastHeap
  simp [hL] <;> try (split_ifs <;> simp_all)

theorem addLastHeap_next_none (h : Heap) (p n x : Nat) (hL : (h p).last = none) :
    (addLastHeap h p n x).nextSibling = (h x).nextSibling := by
  unfold addLastHeap
  simp [hL] <;> try (split_ifs <;> simp_all)

theorem addAfterLastHeap_parent (h : Heap) (p e n x : Nat) :
    (addAfterLastHeap h p e n x).parent = if x = n then some p else (h x).parent := by
  unfold addAfterLastHeap
  simp <;> try (split_ifs <;> simp_all)

theorem addAfterLastHeap_first (h : Heap) (p e n x : Nat) :
    (addAfterLastHeap h p e n x).first = (h x).first := by
  unfold addAfterLastHeap; simp

theorem addAfterLastHeap_last (h : Heap) (p e n x : Nat) :
    (addAfterLastHeap h p e n x).last = if x = p then some n else (h x).last := by
  unfold addAfterLastHeap
  simp <;> try (split_ifs <;> simp_all)

theorem addAfterLastHeap_next (h : Heap) (p e n x : Nat) :
    (addAfterLastHeap h p e n x).nextSibling =
      if x = e then some n else (h x).nextSibling := by
  unfold addAfterLastHeap
  simp <;> try (split_ifs <;> simp_all)

theorem addAfterLastHeap_prev (h : Heap) (p e n x : Nat) :
    (addAfterLastHeap h p e n x).prevSibling =
      if x = n then some e else (h x).prevSibling := by
  unfold addAfterLastHeap
  simp <;> try (split_ifs <;> simp_all)

theorem addAfterMidHeap_parent (h1 : Heap) (p e n ns x : Nat) :
    (addAfterMidHeap h1 p e n ns x).parent = if x = n then some p else (h1 x).parent := by
  unfold addAfterMidHeap
  simp <;> try (split_ifs <;> simp_all)

theorem addAfterMidHeap_first (h1 : Heap) (p e n ns x : Nat) :
    (addAfterMidHeap h1 p e n ns x).first = (h1 x).first := by
  unfold addAfterMidHeap; simp

theorem addAfterMidHeap_last (h1 : Heap) (p e n ns x : Nat) :
    (addAfterMidHeap h1 p e n ns x).last = (h1 x).last := by
  unfold addAfterMidHeap; simp

theorem addAfterMidHeap_next (h1 : Heap) (p e n ns x : Nat) :
    (addAfterMidHeap h1 p e n ns x).nextSibling =
      if x = e then some n else (h1 x).nextSibling := by
  unfold addAfterMidHeap
  simp <;> try (split_ifs <;> simp_all)

theorem addAfterMidHeap_prev (h1 : Heap) (p e n ns x : Nat) :
    (addAfterMidHeap h1 p e n ns x).prevSibling =
      if x = n then some e else if x = ns then some n else (h1 x).prevSibling := by
  unfold addAfterMidHeap
  simp <;> try (split_ifs <;> simp_all)

theorem addBeforeFirstHeap_parent (h : Heap) (p e n x : Nat) :
    (addBeforeFirstHeap h p e n x).parent = if x = n then some p else (h x).parent := by
  unfold addBeforeFirstHeap
  simp <;> try (split_ifs <;> simp_all)

theorem addBeforeFirstHeap_last (h : Heap) (p e n x : Nat) :
    (addBeforeFirstHeap h p e n x).last = (h x).last := by
  unfold addBeforeFirstHeap; simp

theorem addBeforeFirstHeap_first (h : Heap) (p e n x : Nat) :
    (addBeforeFirstHeap h p e n x).first = if x = p then some n else (h x).first := by
  unfold addBeforeFirstHeap
  simp <;> try (split_ifs <;> simp_all)

theorem addBeforeFirstHeap_prev (h : Heap) (p e n x : Nat) :
    (addBeforeFirstHeap h p e n x).prevSibling =
      if x = e then some n else (h x).prevSibling := by
  unfold addBeforeFirstHeap
  simp <;> try (split_ifs <;> simp_all)

theorem addBeforeFirstHeap_next (h : Heap) (p e n x : Nat) :
    (addBeforeFirstHeap h p e n x).nextSibling =
      if x = n then some e else (h x).nextSibling := by
  unfold addBeforeFirstHeap
  simp <;> try (split_ifs <;> simp_all)

theorem addBeforeMidHeap_parent (h1 : Heap) (p e n ps x : Nat) :
    (addBeforeMidHeap h1 p e n ps x).parent = if x = n then some p else (h1 x).parent := by
  unfold addBeforeMidHeap
  simp <;> try (split_ifs <;> simp_all)

theorem addBeforeMidHeap_first (h1 : Heap) (p e n ps x : Nat) :
    (addBeforeMidHeap h1 p e n ps x).first = (h1 x).first := by
  unfold addBeforeMidHeap; simp

theorem addBeforeMidHeap_last (h1 : Heap) (p e n ps x : Nat) :
    (addBeforeMidHeap h1 p e n ps x).last = (h1 x).last := by
  unfold addBeforeMidHeap; simp

theorem addBeforeMidHeap_prev (h1 : Heap) (p e n ps x : Nat) :
    (addBeforeMidHeap h1 p e n ps x).prevSibling =
      if x = e then some n else (h1 x).prevSibling := by
  unfold addBeforeMidHeap
  simp <;> try (split_ifs <;> simp_all)

theorem addBeforeMidHeap_next (h1 : Heap) (p e n ps x : Nat) :
    (addBeforeMidHeap h1 p e n ps x).nextSibling =
      if x = n then some e else if x = ps then some n else (h1 x).nextSibling := by
  unfold addBeforeMidHeap
  simp <;> try (split_ifs <;> simp_all)

theorem addFirst_ok (h : Heap) (p n : Nat) (hc : isValidChild (h n) = true)
    (hv : isValidParent (h p) = true) (hr : isRoot (h n) = true) :
    addFirst h p n = (addFirstHeap h p n, .ok n) := by
  unfold addFirst; simp [hc, hv, hr]

theorem addLast_ok (h : Heap) (p n : Nat) (hc : isValidChild (h n) = true)
    (hv : isValidParent (h p) = true) (hr : isRoot (h n) = true) :
    addLast h p n = (addLastHeap h p n, .ok n) := by
  unfold addLast; simp [hc, hv, hr]

theorem addAfter_ok_last (h : Heap) (P e n : Nat) (hp : (h e).parent = some P)
    (hc : isValidChild (h n) = true) (hv : isValidParent (h P) = true)
    (hr : isRoot (h n) = true) (hl : (h P).last = some e) :
    addAfter h e n = (addAfterLastHeap h P e n, .ok n) := by
  unfold addAfter; simp [hp, hc, hv, hr, hl, isChild]

theorem addAfter_ok_mid (h : Heap) (P e n ns : Nat) (hp : (h e).parent = some P)
    (hc : isValidChild (h n) = true) (hv : isValidParent (h P) = true)
    (hr : isRoot (h n) = true) (hl : ¬(h P).last = some e)
    (hns : (h e).nextSibling = some ns) :
    addAfter h e n = (addAfterMidHeap (setNextSibling h n (some ns)) P e n ns, .ok n) := by
  unfold addAfter; simp [hp, hc, hv, hr, hl, hns, isChild, beq_iff_eq]

theorem addAfter_mid_typeError (h : Heap) (P e n : Nat) (hp : (h e).parent = some P)
    (hc : isValidChild (h n) = true) (hv : isValidParent (h P) = true)
    (hr : isRoot (h n) = true) (hl : ¬(h P).last = some e)
    (hns : (h e).nextSibling = none) :
    addAfter h e n = (setNextSibling h n none, .error .typeError) := by
  unfold addAfter; simp [hp, hc, hv, hr, hl, hns, isChild, beq_iff_eq]

theorem addBefore_ok_first (h : Heap) (P e n : Nat) (hp : (h e).parent = some P)
    (hc : isValidChild (h n) = true) (hv : isValidParent (h P) = true)
    (hr : isRoot (h n) = true) (hf : (h P).first = some e) :
    addBefore h e n = (addBeforeFirstHeap h P e n, .ok n) := by
  unfold addBefore; simp [hp, hc, hv, hr, hf, isChild]

theorem addBefore_ok_mid (h : Heap) (P e n ps : Nat) (hp : (h e).parent = some P)
    (hc : isValidChild (h n) = true) (hv : isValidParent (h P) = true)
    (hr : isRoot (h n) = true) (hf : ¬(h P).first = some e)
    (hps : (h e).prevSibling = some ps) :
    addBefore h e n = (addBeforeMidHeap (setPrevSibling h n (some ps)) P e n ps, .ok n) := by
  unfold addBefore; simp [hp, hc, hv, hr, hf, hps, isChild, beq_iff_eq]

theorem addBefore_mid_typeError (h : Heap) (P e n : Nat) (hp : (h e).parent = some P)
    (hc : isValidChild (h n) = true) (hv : isValidParent (h P) = true)
    (hr : isRoot (h n) = true) (hf : ¬(h P).first = some e)
    (hps : (h e).prevSibling = none) :
    addBefore h e n = (setPrevSibling h n none, .error .typeError) := by
  unfold addBefore; simp [hp, hc, hv, hr, hf, hps, isChild, beq_iff_eq]

theorem root_validChild_no_siblings (nd : Node) (hr : isRoot nd = true)
    (hc : isValidChild nd = true) :
    nd.nextSibling = none ∧ nd.prevSibling = none := by
  simp [isRoot, Option.isNone_iff_eq_none] at hr
  simp [isValidChild, hr] at hc
  rcases hc with ⟨h1, h2⟩
  exact ⟨Option.not_isSome_iff_eq_none.mp (by simp [h1]),
    Option.not_isSome_iff_eq_none.mp (by simp [h2])⟩

theorem isRoot_parent_none (nd : Node) (hr : isRoot nd = true) : nd.parent = none := by
  simpa [isRoot, Option.isNone_iff_eq_none] using hr

theorem validParent_last_of_first (nd : Node) (hv : isValidParent nd = true) (f : Nat)
    (hf : nd.first = some f) : ∃ l, nd.last = some l := by
  simp [isValidParent, hf] at hv
  exact Option.isSome_iff_exists.mp (by simp [hv])

theorem validParent_first_of_last (nd : Node) (hv : isValidParent nd = true) (l : Nat)
    (hl : nd.last = some l) : ∃ f, nd.first = some f := by
  simp [isValidParent, hl] at hv
  exact Option.isSome_iff_exists.mp (by simp [hv])

/-- C1: `addAfter`/`addBefore` on a root (node 0 in the blank heap, which has
no parent) throw the TypeError from dereferencing the absent `parent` in
`parent.last === existingNode` (resp. `parent.first`), evaluated before any
assert runs — not the not-a-child assertion error the spec describes. -/
theorem addAfter_on_root_throws_typeError :
    isRoot (blankHeap 0) = true ∧
    (addAfter blankHeap 0 1).2 = .error .typeError ∧
    (addBefore blankHeap 0 1).2 = .error .typeError := by decide

/-- C5: inserting nodes 1, 2, 3 via `addLast` under the fresh root 0 yields
the sibling order first = 1, 1 → 2 → 3 = last, with the reverse links
mirroring exactly and node 1 having no previous sibling. -/
theorem addLast_three_chain :
    (addLast blankHeap 0 1).2 = .ok 1 ∧
    (addLast (addLast blankHeap 0 1).1 0 2).2 = .ok 2 ∧
    (addLast (addLast (addLast blankHeap 0 1).1 0 2).1 0 3).2 = .ok 3 ∧
    (chainBuilt 0).first = some 1 ∧
    (chainBuilt 1).nextSibling = some 2 ∧
    (chainBuilt 2).nextSibling = some 3 ∧
    (chainBuilt 0).last = some 3 ∧
    (chainBuilt 3).prevSibling = some 2 ∧
    (chainBuilt 2).prevSibling = some 1 ∧
    (chainBuilt 1).prevSibling = none := by decide

/-- C7: every constructor yields a detached node: all fields absent, the
applicable validity predicates hold, and the node is a root. -/
theorem constructors_valid_root :
    isValidNode createNode = true ∧ isRoot createNode = true ∧
    createNode.parent = none ∧ createNode.first = none ∧ createNode.last = none ∧
    createNode.nextSibling = none ∧ createNode.prevSibling = none ∧
    isValidParent createRoot = true ∧ isRoot createRoot = true ∧
    createRoot.first = none ∧ createRoot.last = none ∧
    isValidChild createLeaf = true ∧ isRoot createLeaf = true ∧
    createLeaf.parent = none ∧ createLeaf.nextSibling = none ∧
    createLeaf.prevSibling = none := by decide

/-- C8: inserting a fresh node into itself passes every precondition check:
`addFirst(n, n)` and `addLast(n, n)` on the fresh node 0 both succeed and
leave the node as its own parent, first child and last child. -/
theorem addFirst_self_insertion_cycle :
    (addFirst blankHeap 0 0).2 = .ok 0 ∧
    ((addFirst blankHeap 0 0).1 0).parent = some 0 ∧
    ((addFirst blankHeap 0 0).1 0).first = some 0 ∧
    ((addFirst blankHeap 0 0).1 0).last = some 0 ∧
    (addLast blankHeap 0 0).2 = .ok 0 ∧
    ((addLast blankHeap 0 0).1 0).parent = some 0 ∧
    ((addLast blankHeap 0 0).1 0).first = some 0 ∧
    ((addLast blankHeap 0 0).1 0).last = some 0 := by decide

/-- C2: whenever any of the four insertion operations throws an assertion
error (a failed precondition check), the heap at the throw is exactly the
heap at entry: every field of every node is as it was before the call. -/
theorem insertion_fails_before_any_write :
    (∀ (h : Heap) (p n : Nat) (m : Msg),
      (addFirst h p n).2 = .error (.assertionError m) → (addFirst h p n).1 = h) ∧
    (∀ (h : Heap) (p n : Nat) (m : Msg),
      (addLast h p n).2 = .error (.assertionError m) → (addLast h p n).1 = h) ∧
    (∀ (h : Heap) (e n : Nat) (m : Msg),
      (addAfter h e n).2 = .error (.assertionError m) → (addAfter h e n).1 = h) ∧
    (∀ (h : Heap) (e n : Nat) (m : Msg),
      (addBefore h e n).2 = .error (.assertionError m) → (addBefore h e n).1 = h) := by
  refine ⟨?_, ?_, ?_, ?_⟩
  · intro h p n m hm
    by_cases hc : isValidChild (h n) = true
    · by_cases hv : isValidParent (h p) = true
      · by_cases hr : isRoot (h n) = true
        · rw [addFirst_ok h p n hc hv hr] at hm; simp at hm
        · simp [addFirst, hc, hv, hr]
      · simp [addFirst, hc, hv]
    · simp [addFirst, hc]
  · intro h p n m hm
    by_cases hc : isValidChild (h n) = true
    · by_cases hv : isValidParent (h p) = true
      · by_cases hr : isRoot (h n) = true
        · rw [addLast_ok h p n hc hv hr] at hm; simp at hm
        · simp [addLast, hc, hv, hr]
      · simp [addLast, hc, hv]
    · simp [addLast, hc]
  · intro h e n m hm
    cases hp : (h e).parent with
    | none => simp [addAfter, hp]
    | some P =>
      by_cases hc : isValidChild (h n) = true
      · by_cases hv : isValidParent (h P) = true
        · by_cases hr : isRoot (h n) = true
          · by_cases hl : (h P).last = some e
            · rw [addAfter_ok_last h P e n hp hc hv hr hl] at hm; simp at hm
            · cases hns : (h e).nextSibling with
              | none => rw [addAfter_mid_typeError h P e n hp hc hv hr hl hns] at hm; simp at hm
              | some ns => rw [addAfter_ok_mid h P e n ns hp hc hv hr hl hns] at hm; simp at hm
          · simp [addAfter, hp, hc, hv, hr, isChild]
        · simp [addAfter, hp, hc, hv, isChild]
      · simp [addAfter, hp, hc]
  · intro h e n m hm
    cases hp : (h e).parent with
    | none => simp [addBefore, hp]
    | some P =>
      by_cases hc : isValidChild (h n) = true
      · by_cases hv : isValidParent (h P) = true
        · by_cases hr : isRoot (h n) = true
          · by_cases hf : (h P).first = some e
            · rw [addBefore_ok_first h P e n hp hc hv hr hf] at hm; simp at hm
            · cases hps : (h e).prevSibling with
              | none => rw [addBefore_mid_typeError h P e n hp hc hv hr hf hps] at hm; simp at hm
              | some ps => rw [addBefore_ok_mid h P e n ps hp hc hv hr hf hps] at hm; simp at hm
          · simp [addBefore, hp, hc, hv, hr, isChild]
        · simp [addBefore, hp, hc, hv, isChild]
      · simp [addBefore, hp, hc]

theorem insertion_fails_before_any_write_witness :
    (addFirst attachedHeap 0 1).2 = .error (.assertionError .alreadyAttached) ∧
    (addFirst attachedHeap 0 1).1 = attachedHeap :=
  ⟨by decide, insertion_fails_before_any_write.1 attachedHeap 0 1 .alreadyAttached (by decide)⟩

/-- C3: under its preconditions (valid parent, valid child, node a root),
`addFirst(P, n)` returns `n`; sets `n.parent = P` and `P.first = n`; sets
`P.last = n` when `P.last` was absent; and when `P` had a first child `F`,
sets `n.nextSibling = F` and `F.prevSibling = n`. -/
theorem addFirst_effect (h : Heap) (P n : Nat)
    (hv : isValidParent (h P) = true) (hc : isValidChild (h n) = true)
    (hr : isRoot (h n) = true) :
    (addFirst h P n).2 = .ok n ∧
    ((addFirst h P n).1 n).parent = some P ∧
    ((addFirst h P n).1 P).first = some n ∧
    ((h P).last = none → ((addFirst h P n).1 P).last = some n) ∧
    (∀ F, (h P).first = some F →
      ((addFirst h P n).1 n).nextSibling = some F ∧
      ((addFirst h P n).1 F).prevSibling = some n) := by
  rw [addFirst_ok h P n hc hv hr]
  refine ⟨rfl, ?_, ?_, ?_, ?_⟩
  · simp [addFirstHeap_parent]
  · simp [addFirstHeap_first]
  · intro hl; simp [addFirstHeap_last, hl]
  · intro F hF
    exact ⟨by simp [addFirstHeap_next_some h P n n F hF],
      by simp [addFirstHeap_prev_some h P n F F hF]⟩

theorem addFirst_effect_witness :
    (addFirst childHeap 0 2).2 = .ok 2 ∧
    ((addFirst childHeap 0 2).1 2).parent = some 0 ∧
    ((addFirst childHeap 0 2).1 0).first = some 2 ∧
    ((addFirst childHeap 0 2).1 2).nextSibling = some 1 ∧
    ((addFirst childHeap 0 2).1 1).prevSibling = some 2 := by
  have t := addFirst_effect childHeap 0 2 (by decide) (by decide) (by decide)
  exact ⟨t.1, t.2.1, t.2.2.1, (t.2.2.2.2 1 (by decide)).1, (t.2.2.2.2 1 (by decide)).2⟩

/-- C9: when the four checked preconditions of `addAfter` hold and
`existingNode.nextSibling` is present whenever `existingNode` is not
`parent.last`, the operation dereferences no absent reference and returns the
inserted node; symmetrically for `addBefore` with `prevSibling` and
`parent.first`. -/
theorem wellformed_splice_no_absent_deref :
    (∀ (h : Heap) (e n P : Nat), (h e).parent = some P →
      isValidChild (h n) = true → isValidParent (h P) = true → isRoot (h n) = true →
      (¬(h P).last = some e → (h e).nextSibling ≠ none) →
      (addAfter h e n).2 = .ok n) ∧
    (∀ (h : Heap) (e n P : Nat), (h e).parent = some P →
      isValidChild (h n) = true → isValidParent (h P) = true → isRoot (h n) = true →
      (¬(h P).first = some e → (h e).prevSibling ≠ none) →
      (addBefore h e n).2 = .ok n) := by
  constructor
  · intro h e n P hp hc hv hr hchain
    by_cases hl : (h P).last = some e
    · rw [addAfter_ok_last h P e n hp hc hv hr hl]
    · cases hns : (h e).nextSibling with
      | none => exact absurd hns (hchain hl)
      | some ns => rw [addAfter_ok_mid h P e n ns hp hc hv hr hl hns]
  · intro h e n P hp hc hv hr hchain
    by_cases hf : (h P).first = some e
    · rw [addBefore_ok_first h P e n hp hc hv hr hf]
    · cases hps : (h e).prevSibling with
      | none => exact absurd hps (hchain hf)
      | some ps => rw [addBefore_ok_mid h P e n ps hp hc hv hr hf hps]

theorem wellformed_splice_no_absent_deref_witness :
    (addAfter chainHeap 1 3).2 = .ok 3 ∧ (addBefore chainHeap 2 4).2 = .ok 4 :=
  ⟨wellformed_splice_no_absent_deref.1 chainHeap 1 3 0 (by decide) (by decide) (by decide)
      (by decide) (by decide),
    wellformed_splice_no_absent_deref.2 chainHeap 2 4 0 (by decide) (by decide) (by decide)
      (by decide) (by decide)⟩

/-- C4 counterexample: in `brokenChainHeap` every precondition the claim
lists holds for `addAfter(node 1, node 3)` — node 1 has parent 0, parent 0 is
a valid parent, node 3 is a valid child and a root — yet node 1 is not
`parent.last` and has no `nextSibling`, so the splice dereferences an absent
reference and throws a TypeError instead of returning the inserted node. -/
theorem addAfter_effect_cex :
    (brokenChainHeap 1).parent = some 0 ∧
    isValidParent (brokenChainHeap 0) = true ∧
    isValidChild (brokenChainHeap 3) = true ∧
    isRoot (brokenChainHeap 3) = true ∧
    (addAfter brokenChainHeap 1 3).2 = .error .typeError := by decide

/-- C4 amended: with the two extra hypotheses that `existingNode.nextSibling`
is present whenever `existingNode` is not `parent.last`, and that the old
`nextSibling` is not the node being inserted, `addAfter(existingNode,
nodeToAdd)` returns `nodeToAdd`, splices it between `existingNode` and the
old next sibling on the non-last branch (both neighbour links rewired), makes
it the new `parent.last` on the last branch, and in all cases sets
`nodeToAdd.prevSibling = existingNode`, `existingNode.nextSibling =
nodeToAdd`, `nodeToAdd.parent = parent`. -/
theorem addAfter_effect (h : Heap) (e n P : Nat)
    (hp : (h e).parent = some P)
    (hv : isValidParent (h P) = true) (hc : isValidChild (h n) = true)
    (hr : isRoot (h n) = true)
    (hchain : ¬(h P).last = some e → (h e).nextSibling ≠ none)
    (halias : ¬(h e).nextSibling = some n) :
    (addAfter h e n).2 = .ok n ∧
    ((addAfter h e n).1 n).prevSibling = some e ∧
    ((addAfter h e n).1 e).nextSibling = some n ∧
    ((addAfter h e n).1 n).parent = some P ∧
    ((h P).last = some e → ((addAfter h e n).1 P).last = some n) ∧
    (∀ ns, ¬(h P).last = some e → (h e).nextSibling = some ns →
      ((addAfter h e n).1 n).nextSibling = some ns ∧
      ((addAfter h e n).1 ns).prevSibling = some n) := by
  have hen : e ≠ n := by
    intro hh
    rw [hh, isRoot_parent_none _ hr] at hp
    cases hp
  by_cases hl : (h P).last = some e
  · rw [addAfter_ok_last h P e n hp hc hv hr hl]
    refine ⟨rfl, ?_, ?_, ?_, ?_, ?_⟩
    · simp [addAfterLastHeap_prev]
    · simp [addAfterLastHeap_next]
    · simp [addAfterLastHeap_parent]
    · intro _; simp [addAfterLastHeap_last]
    · intro ns hcon _; exact absurd hl hcon
  · obtain ⟨ns, hns⟩ := Option.ne_none_iff_exists'.mp (hchain hl)
    rw [addAfter_ok_mid h P e n ns hp hc hv hr hl hns]
    have hnsn : ns ≠ n := by
      intro hh; rw [hh] at hns; exact halias hns
    refine ⟨rfl, ?_, ?_, ?_, ?_, ?_⟩
    · simp [addAfterMidHeap_prev]
    · simp [addAfterMidHeap_next]
    · simp [addAfterMidHeap_parent]
    · intro hcon; exact absurd hcon hl
    · intro ns2 _ hns2
      rw [hns] at hns2
      injection hns2 with hns2
      subst hns2
      constructor
      · simp [addAfterMidHeap_next, Ne.symm hen]
      · simp [addAfterMidHeap_prev, hnsn, Ne.symm hen]

theorem addAfter_effect_witness :
    (addAfter chainHeap 1 3).2 = .ok 3 ∧
    ((addAfter chainHeap 1 3).1 3).prevSibling = some 1 ∧
    ((addAfter chainHeap 1 3).1 1).nextSibling = some 3 ∧
    ((addAfter chainHeap 1 3).1 3).parent = some 0 ∧
    ((addAfter chainHeap 1 3).1 3).nextSibling = some 2 ∧
    ((addAfter chainHeap 1 3).1 2).prevSibling = some 3 := by
  have t := addAfter_effect chainHeap 1 3 0 (by decide) (by decide) (by decide) (by decide)
    (by decide) (by decide)
  exact ⟨t.1, t.2.1, t.2.2.1, t.2.2.2.1, (t.2.2.2.2.2 2 (by decide) (by decide)).1,
    (t.2.2.2.2.2 2 (by decide) (by decide)).2⟩

/-- Invariant preservation for `addFirst`, used by the C6 theorem. -/
theorem addFirst_inv_aux (h : Heap) (P n : Nat)
    (hc : isValidChild (h n) = true) (hv : isValidParent (h P) = true)
    (hr : isRoot (h n) = true)
    (hcP : isValidChild (h P) = true) (hvn : isValidParent (h n) = true)
    (halias : ¬(h P).first = some P) :
    isValidParent ((addFirst h P n).1 P) = true ∧
    isValidChild ((addFirst h P n).1 P) = true ∧
    isValidParent ((addFirst h P n).1 n) = true ∧
    isValidChild ((addFirst h P n).1 n) = true := by
  rw [addFirst_ok h P n hc hv hr]
  refine ⟨?_, ?_, ?_, ?_⟩
  · cases hl : (h P).last <;>
      simp [isValidParent, addFirstHeap_first, addFirstHeap_last, hl]
  · by_cases hPn : P = n
    · subst hPn; simp [isValidChild, addFirstHeap_parent]
    · cases hF : (h P).first with
      | none =>
        have h1 : (addFirstHeap h P n P).parent = (h P).parent := by
          simp [addFirstHeap_parent, hPn]
        have h2 := addFirstHeap_next_none h P n P hF
        have h3 := addFirstHeap_prev_none h P n P hF
        simpa [isValidChild, h1, h2, h3] using hcP
      | some F =>
        have hPF : P ≠ F := by
          intro hh; rw [← hh] at hF; exact halias hF
        have h1 : (addFirstHeap h P n P).parent = (h P).parent := by
          simp [addFirstHeap_parent, hPn]
        have h2 : (addFirstHeap h P n P).nextSibling = (h P).nextSibling := by
          simp [addFirstHeap_next_some h P n P F hF, hPn]
        have h3 : (addFirstHeap h P n P).prevSibling = (h P).prevSibling := by
          simp [addFirstHeap_prev_some h P n P F hF, hPF]
        simpa [isValidChild, h1, h2, h3] using hcP
  · by_cases hPn : P = n
    · subst hPn
      cases hl : (h P).last <;>
        simp [isValidParent, addFirstHeap_first, addFirstHeap_last, hl]
    · have h1 : (addFirstHeap h P n n).first = (h n).first := by
        simp [addFirstHeap_first, Ne.symm hPn]
      have h2 : (addFirstHeap h P n n).last = (h n).last := by
        cases hl : (h P).last <;> simp [addFirstHeap_last, hl, Ne.symm hPn]
      simpa [isValidParent, h1, h2] using hvn
  · simp [isValidChild, addFirstHeap_parent]

/-- Invariant preservation for `addLast`, used by the C6 theorem. -/
theorem addLast_inv_aux (h : Heap) (P n : Nat)
    (hc : isValidChild (h n) = true) (hv : isValidParent (h P) = true)
    (hr : isRoot (h n) = true)
    (hcP : isValidChild (h P) = true) (hvn : isValidParent (h n) = true)
    (halias : ¬(h P).last = some P) :
    isValidParent ((addLast h P n).1 P) = true ∧
    isValidChild ((addLast h P n).1 P) = true ∧
    isValidParent ((addLast h P n).1 n) = true ∧
    isValidChild ((addLast h P n).1 n) = true := by
  rw [addLast_ok h P n hc hv hr]
  refine ⟨?_, ?_, ?_, ?_⟩
  · cases hf : (h P).first <;>
      simp [isValidParent, addLastHeap_first, addLastHeap_last, hf]
  · by_cases hPn : P = n
    · subst hPn; simp [isValidChild, addLastHeap_parent]
    · cases hL : (h P).last with
      | none =>
        have h1 : (addLastHeap h P n P).parent = (h P).parent := by
          simp [addLastHeap_parent, hPn]
        have h2 := addLastHeap_next_none h P n P hL
        have h3 := addLastHeap_prev_none h P n P hL
        simpa [isValidChild, h1, h2, h3] using hcP
      | some L =>
        have hPL : P ≠ L := by
          intro hh; rw [← hh] at hL; exact halias hL
        have h1 : (addLastHeap h P n P).parent = (h P).parent := by
          simp [addLastHeap_parent, hPn]
        have h2 : (addLastHeap h P n P).nextSibling = (h P).nextSibling := by
          simp [addLastHeap_next_some h P n P L hL, hPL]
        have h3 : (addLastHeap h P n P).prevSibling = (h P).prevSibling := by
          simp [addLastHeap_prev_some h P n P L hL, hPn]
        simpa [isValidChild, h1, h2, h3] using hcP
  · by_cases hPn : P = n
    · subst hPn
      cases hf : (h P).first <;>
        simp [isValidParent, addLastHeap_first, addLastHeap_last, hf]
    · have h1 : (addLastHeap h P n n).last = (h n).last := by
        simp [addLastHeap_last, Ne.symm hPn]
      have h2 : (addLastHeap h P n n).first = (h n).first := by
        cases hf : (h P).first <;> simp [addLastHeap_first, hf, Ne.symm hPn]
      simpa [isValidParent, h1, h2] using hvn
  · simp [isValidChild, addLastHeap_parent]

/-- Invariant preservation for `addAfter`, used by the C6 theorem. -/
theorem addAfter_inv_aux (h : Heap) (e n P : Nat)
    (hp : (h e).parent = some P)
    (hc : isValidChild (h n) = true) (hv : isValidParent (h P) = true)
    (hr : isRoot (h n) = true)
    (hcP : isValidChild (h P) = true) (hvn : isValidParent (h n) = true)
    (halias : ¬(h e).nextSibling = some P)
    (hok : (addAfter h e n).2 = .ok n) :
    isValidParent ((addAfter h e n).1 P) = true ∧
    isValidChild ((addAfter h e n).1 P) = true ∧
    isValidParent ((addAfter h e n).1 n) = true ∧
    isValidChild ((addAfter h e n).1 n) = true := by
  by_cases hl : (h P).last = some e
  · rw [addAfter_ok_last h P e n hp hc hv hr hl]
    obtain ⟨f, hf⟩ := validParent_first_of_last (h P) hv e hl
    refine ⟨?_, ?_, ?_, ?_⟩
    · simp [isValidParent, addAfterLastHeap_first, addAfterLastHeap_last, hf]
    · by_cases hPn : P = n
      · subst hPn; simp [isValidChild, addAfterLastHeap_parent]
      · by_cases hPe : P = e
        · subst hPe
          simp [isValidChild, addAfterLastHeap_parent, hPn, hp]
        · have h1 : (addAfterLastHeap h P e n P).parent = (h P).parent := by
            simp [addAfterLastHeap_parent, hPn]
          have h2 : (addAfterLastHeap h P e n P).nextSibling = (h P).nextSibling := by
            simp [addAfterLastHeap_next, hPe]
          have h3 : (addAfterLastHeap h P e n P).prevSibling = (h P).prevSibling := by
            simp [addAfterLastHeap_prev, hPn]
          simpa [isValidChild, h1, h2, h3] using hcP
    · by_cases hPn : P = n
      · subst hPn
        simp [isValidParent, addAfterLastHeap_first, addAfterLastHeap_last, hf]
      · have h1 : (addAfterLastHeap h P e n n).first = (h n).first := by
          simp [addAfterLastHeap_first]
        have h2 : (addAfterLastHeap h P e n n).last = (h n).last := by
          simp [addAfterLastHeap_last, Ne.symm hPn]
        simpa [isValidParent, h1, h2] using hvn
    · simp [isValidChild, addAfterLastHeap_parent]
  · cases hns : (h e).nextSibling with
    | none =>
      rw [addAfter_mid_typeError h P e n hp hc hv hr hl hns] at hok
      simp at hok
    | some ns =>
      rw [addAfter_ok_mid h P e n ns hp hc hv hr hl hns]
      refine ⟨?_, ?_, ?_, ?_⟩
      · simp [isValidParent, addAfterMidHeap_first, addAfterMidHeap_last]
        simpa [isValidParent] using hv
      · by_cases hPn : P = n
        · subst hPn; simp [isValidChild, addAfterMidHeap_parent]
        · by_cases hPe : P = e
          · subst hPe
            simp [isValidChild, addAfterMidHeap_parent, hPn, hp]
          · by_cases hPns : P = ns
            · exact absurd (hPns ▸ hns) halias
            · have h1 : (addAfterMidHeap (setNextSibling h n (some ns)) P e n ns P).parent
                  = (h P).parent := by
                simp [addAfterMidHeap_parent, hPn]
              have h2 : (addAfterMidHeap (setNextSibling h n (some ns)) P e n ns P).nextSibling
                  = (h P).nextSibling := by
                simp [addAfterMidHeap_next, hPe, hPn]
              have h3 : (addAfterMidHeap (setNextSibling h n (some ns)) P e n ns P).prevSibling
                  = (h P).prevSibling := by
                simp [addAfterMidHeap_prev, hPn, hPns]
              simpa [isValidChild, h1, h2, h3] using hcP
      · have h1 : (addAfterMidHeap (setNextSibling h n (some ns)) P e n ns n).first
            = (h n).first := by
          simp [addAfterMidHeap_first]
        have h2 : (addAfterMidHeap (setNextSibling h n (some ns)) P e n ns n).last
            = (h n).last := by
          simp [addAfterMidHeap_last]
        simpa [isValidParent, h1, h2] using hvn
      · simp [isValidChild, addAfterMidHeap_parent]

/-- Invariant preservation for `addBefore`, used by the C6 theorem. -/
theorem addBefore_inv_aux (h : Heap) (e n P : Nat)
    (hp : (h e).parent = some P)
    (hc : isValidChild (h n) = true) (hv : isValidParent (h P) = true)
    (hr : isRoot (h n) = true)
    (hcP : isValidChild (h P) = true) (hvn : isValidParent (h n) = true)
    (halias : ¬(h e).prevSibling = some P)
    (hok : (addBefore h e n).2 = .ok n) :
    isValidParent ((addBefore h e n).1 P) = true ∧
    isValidChild ((addBefore h e n).1 P) = true ∧
    isValidParent ((addBefore h e n).1 n) = true ∧
    isValidChild ((addBefore h e n).1 n) = true := by
  by_cases hf : (h P).first = some e
  · rw [addBefore_ok_first h P e n hp hc hv hr hf]
    obtain ⟨l, hl⟩ := validParent_last_of_first (h P) hv e hf
    refine ⟨?_, ?_, ?_, ?_⟩
    · simp [isValidParent, addBeforeFirstHeap_first, addBeforeFirstHeap_last, hl]
    · by_cases hPn : P = n
      · subst hPn; simp [isValidChild, addBeforeFirstHeap_parent]
      · by_cases hPe : P = e
        · subst hPe
          simp [isValidChild, addBeforeFirstHeap_parent, hPn, hp]
        · have h1 : (addBeforeFirstHeap h P e n P).parent = (h P).parent := by
            simp [addBeforeFirstHeap_parent, hPn]
          have h2 : (addBeforeFirstHeap h P e n P).nextSibling = (h P).nextSibling := by
            simp [addBeforeFirstHeap_next, hPn]
          have h3 : (addBeforeFirstHeap h P e n P).prevSibling = (h P).prevSibling := by
            simp [addBeforeFirstHeap_prev, hPe]
          simpa [isValidChild, h1, h2, h3] using hcP
    · by_cases hPn : P = n
      · subst hPn
        simp [isValidParent, addBeforeFirstHeap_first, addBeforeFirstHeap_last, hl]
      · have h1 : (addBeforeFirstHeap h P e n n).last = (h n).last := by
          simp [addBeforeFirstHeap_last]
        have h2 : (addBeforeFirstHeap h P e n n).first = (h n).first := by
          simp [addBeforeFirstHeap_first, Ne.symm hPn]
        simpa [isValidParent, h1, h2] using hvn
    · simp [isValidChild, addBeforeFirstHeap_parent]
  · cases hps : (h e).prevSibling with
    | none =>
      rw [addBefore_mid_typeError h P e n hp hc hv hr hf hps] at hok
      simp at hok
    | some ps =>
      rw [addBefore_ok_mid h P e n ps hp hc hv hr hf hps]
      refine ⟨?_, ?_, ?_, ?_⟩
      · simp [isValidParent, addBeforeMidHeap_first, addBeforeMidHeap_last]
        simpa [isValidParent] using hv
      · by_cases hPn : P = n
        · subst hPn; simp [isValidChild, addBeforeMidHeap_parent]
        · by_cases hPe : P = e
          · subst hPe
            simp [isValidChild, addBeforeMidHeap_parent, hPn, hp]
          · by_cases hPps : P = ps
            · exact absurd (hPps ▸ hps) halias
            · have h1 : (addBeforeMidHeap (setPrevSibling h n (some ps)) P e n ps P).parent
                  = (h P).parent := by
                simp [addBeforeMidHeap_parent, hPn]
              have h2 : (addBeforeMidHeap (setPrevSibling h n (some ps)) P e n ps P).prevSibling
                  = (h P).prevSibling := by
                simp [addBeforeMidHeap_prev, hPe, hPn]
              have h3 : (addBeforeMidHeap (setPrevSibling h n (some ps)) P e n ps P).nextSibling
                  = (h P).nextSibling := by
                simp [addBeforeMidHeap_next, hPn, hPps]
              simpa [isValidChild, h1, h2, h3] using hcP
      · have h1 : (addBeforeMidHeap (setPrevSibling h n (some ps)) P e n ps n).first
            = (h n).first := by
          simp [addBeforeMidHeap_first]
        have h2 : (addBeforeMidHeap (setPrevSibling h n (some ps)) P e n ps n).last
            = (h n).last := by
          simp [addBeforeMidHeap_last]
        simpa [isValidParent, h1, h2] using hvn
      · simp [isValidChild, addBeforeMidHeap_parent]

/-- C6 (amended): any successful insertion whose preconditions held, with the
valid-parent and valid-child invariants holding beforehand for both the
parent and the inserted node, re-establishes all four invariants for both —
provided no sibling-link write lands on the parent through an alias: the
parent is not its own first child (`addFirst`), not its own last child
(`addLast`), and not the existing node's old next/previous sibling
(`addAfter`/`addBefore`). -/
theorem insertion_preserves_invariants :
    (∀ (h : Heap) (P n : Nat), isValidChild (h n) = true → isValidParent (h P) = true →
      isRoot (h n) = true → isValidChild (h P) = true → isValidParent (h n) = true →
      ¬(h P).first = some P →
      isValidParent ((addFirst h P n).1 P) = true ∧
      isValidChild ((addFirst h P n).1 P) = true ∧
      isValidParent ((addFirst h P n).1 n) = true ∧
      isValidChild ((addFirst h P n).1 n) = true) ∧
    (∀ (h : Heap) (P n : Nat), isValidChild (h n) = true → isValidParent (h P) = true →
      isRoot (h n) = true → isValidChild (h P) = true → isValidParent (h n) = true →
      ¬(h P).last = some P →
      isValidParent ((addLast h P n).1 P) = true ∧
      isValidChild ((addLast h P n).1 P) = true ∧
      isValidParent ((addLast h P n).1 n) = true ∧
      isValidChild ((addLast h P n).1 n) = true) ∧
    (∀ (h : Heap) (e n P : Nat), (h e).parent = some P →
      isValidChild (h n) = true → isValidParent (h P) = true → isRoot (h n) = true →
      isValidChild (h P) = true → isValidParent (h n) = true →
      ¬(h e).nextSibling = some P → (addAfter h e n).2 = .ok n →
      isValidParent ((addAfter h e n).1 P) = true ∧
      isValidChild ((addAfter h e n).1 P) = true ∧
      isValidParent ((addAfter h e n).1 n) = true ∧
      isValidChild ((addAfter h e n).1 n) = true) ∧
    (∀ (h : Heap) (e n P : Nat), (h e).parent = some P →
      isValidChild (h n) = true → isValidParent (h P) = true → isRoot (h n) = true →
      isValidChild (h P) = true → isValidParent (h n) = true →
      ¬(h e).prevSibling = some P → (addBefore h e n).2 = .ok n →
      isValidParent ((addBefore h e n).1 P) = true ∧
      isValidChild ((addBefore h e n).1 P) = true ∧
      isValidParent ((addBefore h e n).1 n) = true ∧
      isValidChild ((addBefore h e n).1 n) = true) :=
  ⟨addFirst_inv_aux, addLast_inv_aux, addAfter_inv_aux, addBefore_inv_aux⟩

/-- C6 counterexample: in `selfFirstHeap`, parentless node 0 is its own first
and last child; every precondition and pre-invariant of the claim holds, and
`addFirst(0, 1)` succeeds, yet afterwards node 0 violates valid-child: the
splice wrote `0.prevSibling = 1` while node 0 still has no parent. -/
theorem insertion_preserves_invariants_cex :
    isValidChild (selfFirstHeap 1) = true ∧
    isValidParent (selfFirstHeap 0) = true ∧
    isRoot (selfFirstHeap 1) = true ∧
    isValidChild (selfFirstHeap 0) = true ∧
    isValidParent (selfFirstHeap 1) = true ∧
    (addFirst selfFirstHeap 0 1).2 = .ok 1 ∧
    isValidChild ((addFirst selfFirstHeap 0 1).1 0) = false := by decide

/-- C6 witness: inserting fresh node 2 at the front of parent 0 in `childHeap`
re-establishes all four invariants for parent and node. -/
theorem insertion_preserves_invariants_witness :
    isValidParent ((addFirst childHeap 0 2).1 0) = true ∧
    isValidChild ((addFirst childHeap 0 2).1 0) = true ∧
    isValidParent ((addFirst childHeap 0 2).1 2) = true ∧
    isValidChild ((addFirst childHeap 0 2).1 2) = true :=
  insertion_preserves_invariants.1 childHeap 0 2 (by decide) (by decide) (by decide)
    (by decide) (by decide) (by decide)

/-- Two nodes with equal fields are equal. -/
theorem nodeFieldsEq (a b : Node) (h1 : a.parent = b.parent) (h2 : a.first = b.first)
    (h3 : a.last = b.last) (h4 : a.nextSibling = b.nextSibling)
    (h5 : a.prevSibling = b.prevSibling) : a = b := by
  cases a; cases b; simp_all

/-- C10 (amended): on a non-empty parent, `addLast(P, n)` leaves `P.first`
unchanged and leaves every field of every existing child of `P` other than
`P` itself unchanged, except the old last child's `nextSibling`, which
becomes `n`; dually, `addFirst(P, n)` leaves `P.last` and all such children
unchanged except the old first child's `prevSibling`. -/
theorem insertion_frame :
    (∀ (h : Heap) (P n L : Nat), isValidChild (h n) = true → isValidParent (h P) = true →
      isRoot (h n) = true → (h P).last = some L →
      ((addLast h P n).1 P).first = (h P).first ∧
      (∀ c, (h c).parent = some P → c ≠ P →
        (c = L → (addLast h P n).1 c = { h c with nextSibling := some n }) ∧
        (c ≠ L → (addLast h P n).1 c = h c))) ∧
    (∀ (h : Heap) (P n F : Nat), isValidChild (h n) = true → isValidParent (h P) = true →
      isRoot (h n) = true → (h P).first = some F →
      ((addFirst h P n).1 P).last = (h P).last ∧
      (∀ c, (h c).parent = some P → c ≠ P →
        (c = F → (addFirst h P n).1 c = { h c with prevSibling := some n }) ∧
        (c ≠ F → (addFirst h P n).1 c = h c))) := by
  constructor
  · intro h P n L hc hv hr hL
    rw [addLast_ok h P n hc hv hr]
    obtain ⟨f, hf⟩ := validParent_first_of_last (h P) hv L hL
    have hnp : (h n).parent = none := isRoot_parent_none _ hr
    constructor
    · simp [addLastHeap_first, hf]
    · intro c hcp hcP
      have hcn : c ≠ n := by intro hh; rw [hh, hnp] at hcp; cases hcp
      constructor
      · intro hcL; subst hcL
        apply nodeFieldsEq
        · simp [addLastHeap_parent, hcn]
        · simp [addLastHeap_first, hf]
        · simp [addLastHeap_last, hcP]
        · simp [addLastHeap_next_some h P n c c hL]
        · simp [addLastHeap_prev_some h P n c c hL, hcn]
      · intro hcL
        apply nodeFieldsEq
        · simp [addLastHeap_parent, hcn]
        · simp [addLastHeap_first, hf]
        · simp [addLastHeap_last, hcP]
        · simp [addLastHeap_next_some h P n c L hL, hcL]
        · simp [addLastHeap_prev_some h P n c L hL, hcn]
  · intro h P n F hc hv hr hF
    rw [addFirst_ok h P n hc hv hr]
    obtain ⟨l, hl⟩ := validParent_last_of_first (h P) hv F hF
    have hnp : (h n).parent = none := isRoot_parent_none _ hr
    constructor
    · simp [addFirstHeap_last, hl]
    · intro c hcp hcP
      have hcn : c ≠ n := by intro hh; rw [hh, hnp] at hcp; cases hcp
      constructor
      · intro hcF; subst hcF
        apply nodeFieldsEq
        · simp [addFirstHeap_parent, hcn]
        · simp [addFirstHeap_first, hcP]
        · simp [addFirstHeap_last, hl]
        · simp [addFirstHeap_next_some h P n c c hF, hcn]
        · simp [addFirstHeap_prev_some h P n c c hF]
      · intro hcF
        apply nodeFieldsEq
        · simp [addFirstHeap_parent, hcn]
        · simp [addFirstHeap_first, hcP]
        · simp [addFirstHeap_last, hl]
        · simp [addFirstHeap_next_some h P n c F hF, hcn]
        · simp [addFirstHeap_prev_some h P n c F hF, hcF]

/-- C10 counterexample: in `selfChildHeap`, node 0 is its own child (its
`parent` is `some 0`) and is not the old last child (node 1), yet
`addLast(0, 2)` changes its `last` field — so "every field of every existing
child of P unchanged except the old last child's nextSibling" fails when the
parent occurs among its own children. -/
theorem insertion_frame_cex :
    isValidChild (selfChildHeap 2) = true ∧
    isValidParent (selfChildHeap 0) = true ∧
    isRoot (selfChildHeap 2) = true ∧
    (selfChildHeap 0).last = some 1 ∧
    (selfChildHeap 0).parent = some 0 ∧
    (addLast selfChildHeap 0 2).2 = .ok 2 ∧
    ((addLast selfChildHeap 0 2).1 0).last = some 2 := by decide

/-- C10 witness: appending and prepending node 3 to the two-child parent 0 of
`chainHeap` only touches the expected neighbour fields. -/
theorem insertion_frame_witness :
    ((addLast chainHeap 0 3).1 0).first = (chainHeap 0).first ∧
    (addLast chainHeap 0 3).1 1 = chainHeap 1 ∧
    (addLast chainHeap 0 3).1 2 = { chainHeap 2 with nextSibling := some 3 } ∧
    ((addFirst chainHeap 0 3).1 0).last = (chainHeap 0).last ∧
    (addFirst chainHeap 0 3).1 2 = chainHeap 2 ∧
    (addFirst chainHeap 0 3).1 1 = { chainHeap 1 with prevSibling := some 3 } := by
  have t1 := insertion_frame.1 chainHeap 0 3 2 (by decide) (by decide) (by decide) (by decide)
  have t2 := insertion_frame.2 chainHeap 0 3 1 (by decide) (by decide) (by decide) (by decide)
  exact ⟨t1.1, (t1.2 1 (by decide) (by decide)).2 (by decide),
    (t1.2 2 (by decide) (by decide)).1 rfl, t2.1,
    (t2.2 2 (by decide) (by decide)).2 (by decide),
    (t2.2 1 (by decide) (by decide)).1 rfl⟩
